import Mathlib

/-!
Verification of the wordpress-audit scanning/analysis core.

The Rust sources (src/analyze.rs, src/scanner.rs, src/error.rs) are shallowly
embedded below: strings become `String`/`List Char`, machine integers become
`Nat` with explicit bounds where overflow matters (Rust's `u64` parsing), and
fallible code returns `Option`/`Except`.  Network effects (HTTP fetches, DNS
resolution, WordPress.org catalog calls) are modelled as explicit oracle
parameters, so each embedded operation is a pure, executable function.
-/

namespace WpAudit

/-! ## Character classes (Rust `char::is_ascii_*`)

`Char.isDigit`, `Char.isAlpha` and `Char.isAlphanum` in Lean core test exactly
the ASCII ranges, matching Rust's `is_ascii_digit`, `is_ascii_alphabetic` and
`is_ascii_alphanumeric`. -/

/-- Rust `char::is_ascii_hexdigit`: 0-9, a-f, A-F. -/
def isHexDigitRust (c : Char) : Bool :=
  c.isDigit || ('a' ≤ c && c ≤ 'f') || ('A' ≤ c && c ≤ 'F')

/-! ## src/analyze.rs : `compare_versions` -/

/-- Rust `str::split('.')` on a list of characters: always yields at least one
(possibly empty) segment, one extra segment per separator. -/
def splitDots : List Char → List (List Char)
  | [] => [[]]
  | c :: rest =>
    if c = '.' then [] :: splitDots rest
    else
      match splitDots rest with
      | [] => [[c]]
      | s :: ss => (c :: s) :: ss

/-- Numeric value of a digit run (most significant first). -/
def digitsVal (l : List Char) : Nat :=
  l.foldl (fun n c => n * 10 + (c.toNat - '0'.toNat)) 0

/-- Rust `str::parse::<u64>()`: an optional leading plus sign, then one or
more ASCII digits; fails on anything else and on overflow past `2^64 - 1`. -/
def parseU64 (s : List Char) : Option Nat :=
  let t := match s with
    | '+' :: rest => rest
    | other => other
  if t ≠ [] ∧ t.all Char.isDigit then
    let n := digitsVal t
    if n < 18446744073709551616 then some n else none
  else none

/-- Character at which `compare_versions`' inner `parse_version` cuts off the
suffix: a hyphen or an ASCII letter. -/
def isSuffixStart (c : Char) : Bool :=
  c == '-' || c.isAlpha

/-- Inner `parse_version` of `compare_versions` (src/analyze.rs):
split off any suffix at the first `-`/ASCII-letter, parse the leading part as
dot-separated `u64`s dropping unparseable segments, and report whether a
suffix was present. -/
def parse_version (v : List Char) : List Nat × Bool :=
  let version_part := v.takeWhile (fun c => !isSuffixStart c)
  let has_suffix := v.any isSuffixStart
  ((splitDots version_part).filterMap parseU64, has_suffix)

/-- Tail of the comparison loop once the left sequence is exhausted: each
missing left component is read as `0`. -/
def zeroCmpLoop : List Nat → Ordering
  | [] => .eq
  | l :: ls =>
    match compare 0 l with
    | .eq => zeroCmpLoop ls
    | o => o

/-- The numeric-comparison loop of `compare_versions`: indices `0..max_len`
with missing components read as `0`, first unequal pair decides. -/
def numCmpLoop : List Nat → List Nat → Ordering
  | [], ls => zeroCmpLoop ls
  | c :: cs, [] =>
    match compare c 0 with
    | .eq => numCmpLoop cs []
    | o => o
  | c :: cs, l :: ls =>
    match compare c l with
    | .eq => numCmpLoop cs ls
    | o => o

/-- src/analyze.rs `compare_versions`: numeric components first, then the
suffix rule (a version without suffix is newer than one with a suffix). -/
def compare_versions (current latest : String) : Ordering :=
  let c := parse_version current.data
  let l := parse_version latest.data
  match numCmpLoop c.1 l.1 with
  | .eq =>
    match c.2, l.2 with
    | false, true => .gt
    | true, false => .lt
    | _, _ => .eq
  | o => o

/-! ### Spec-side model of the comparison algorithm (claim C1)

Stated from the spec's words: zero-pad the shorter numeric sequence, compare
component-wise left to right with the first unequal pair deciding; when all
numeric components are equal a version with no suffix is greater than one
with a suffix, and two versions that both or neither carry a suffix are
equal.  Segment parsing is delegated to the same `u64` parser the program
uses. -/

/-- Zero-pad a numeric sequence on the right up to length `n`. -/
def padTo (n : Nat) (xs : List Nat) : List Nat :=
  xs ++ List.replicate (n - xs.length) 0

/-- First unequal pair decides; equal prefixes are skipped. -/
def firstDiffCmp : List (Nat × Nat) → Ordering
  | [] => .eq
  | (c, l) :: rest =>
    match compare c l with
    | .eq => firstDiffCmp rest
    | o => o

/-- Spec-side comparison (claim C1's algorithm, stated from the spec). -/
def spec_compare (a b : String) : Ordering :=
  let pa := parse_version a.data
  let pb := parse_version b.data
  let n := max pa.1.length pb.1.length
  match firstDiffCmp ((padTo n pa.1).zip (padTo n pb.1)) with
  | .eq =>
    if pa.2 = false ∧ pb.2 = true then .gt
    else if pa.2 = true ∧ pb.2 = false then .lt
    else .eq
  | o => o

/-! ## src/scanner.rs : `Scanner::normalize_version` -/

/-- Characters of `"timestamp:"`, the tail of the timestamp mask opener. -/
def tsTail : List Char := ['t', 'i', 'm', 'e', 's', 't', 'a', 'm', 'p', ':']

/-- The characters of the literal `"(timestamp:"` opening the masked form. -/
def tsPre : List Char := '(' :: tsTail

/-- Characters of `"hash:"`, the tail of the hash mask opener. -/
def hashTail : List Char := ['h', 'a', 's', 'h', ':']

/-- The characters of the literal `"(hash:"` opening the masked form. -/
def hashPre : List Char := '(' :: hashTail

/-- Rust `version.starts_with(['1', '2'])`: the first character is `'1'` or
`'2'`. -/
def headIs12 : List Char → Bool
  | [] => false
  | c :: _ => c == '1' || c == '2'

/-- src/scanner.rs `Scanner::normalize_version`, on the character list: mask
ten-digit tokens opening with 1/2 as timestamps, hex non-digit tokens of
length 40 or at least 7 as hashes (shortened to 7 characters), and pass
everything else through. -/
def normalizeCore (v : List Char) : List Char :=
  if v.length = 10 ∧ v.all Char.isDigit ∧ headIs12 v then
    tsPre ++ v ++ [')']
  else if (v.length = 40 ∨ 7 ≤ v.length) ∧ v.all isHexDigitRust ∧ ¬ v.all Char.isDigit then
    hashPre ++ (if 7 < v.length then v.take 7 else v) ++ [')']
  else v

/-- src/scanner.rs `Scanner::normalize_version`. -/
def normalize_version (version : String) : String :=
  String.mk (normalizeCore version.data)

/-- Spec-side statement of the normalizer (claim C3), from the spec's words:
timestamp mask for 10-digit tokens beginning 1/2, else hash mask with the
first 7 characters for all-hex not-all-digit tokens of length exactly 40 or
at least 7, else the token unchanged. -/
def spec_normalize (token : String) : String :=
  if token.data.length = 10 ∧ token.data.all Char.isDigit ∧ headIs12 token.data then
    String.mk (tsPre ++ token.data ++ [')'])
  else if token.data.all isHexDigitRust ∧ ¬ token.data.all Char.isDigit ∧
      (token.data.length = 40 ∨ 7 ≤ token.data.length) then
    String.mk (hashPre ++ token.data.take 7 ++ [')'])
  else token

/-! ## src/analyze.rs : data model and analyzer -/

/-- Placeholder for unknown/missing version information. -/
def UNKNOWN_VERSION : String := "-"

/-- src/analyze.rs `ComponentType`. -/
inductive ComponentType
  | core
  | theme
  | plugin
deriving DecidableEq, Repr

/-- src/analyze.rs `ComponentStatus`. -/
inductive ComponentStatus
  | ok
  | unknown
  | outdated
  | notDetected
deriving DecidableEq, Repr

/-- src/analyze.rs `ComponentAnalysis`. -/
structure ComponentAnalysis where
  component_type : ComponentType
  name : String
  version : String
  latest_version : String
  status : ComponentStatus
deriving DecidableEq, Repr

/-- src/analyze.rs `ComponentAnalysis::new`. -/
def ComponentAnalysis.new (component_type : ComponentType) (name : String)
    (version latest_version : Option String) : ComponentAnalysis :=
  let version_str := version.getD UNKNOWN_VERSION
  let latest_str := latest_version.getD UNKNOWN_VERSION
  let status :=
    if version_str = UNKNOWN_VERSION then ComponentStatus.unknown
    else if latest_str = UNKNOWN_VERSION then ComponentStatus.ok
    else
      match compare_versions version_str latest_str with
      | .lt => ComponentStatus.outdated
      | .eq => ComponentStatus.ok
      | .gt => ComponentStatus.ok
  { component_type, name, version := version_str, latest_version := latest_str,
    status }

/-- src/analyze.rs `ComponentAnalysis::not_detected`. -/
def ComponentAnalysis.not_detected (component_type : ComponentType)
    (name : String) : ComponentAnalysis :=
  { component_type, name, version := UNKNOWN_VERSION,
    latest_version := UNKNOWN_VERSION, status := ComponentStatus.notDetected }

/-- src/scanner.rs `ThemeInfo`. -/
structure ThemeInfo where
  slug : String
  version : Option String
  latest_version : Option String
deriving DecidableEq, Repr

/-- src/scanner.rs `PluginInfo`. -/
structure PluginInfo where
  slug : String
  version : Option String
  latest_version : Option String
deriving DecidableEq, Repr

/-- src/scanner.rs `ScanResult` (the `Url` field kept as its string form). -/
structure ScanResult where
  url : String
  wordpress_detected : Bool
  wordpress_version : Option String
  wordpress_latest : Option String
  theme : Option ThemeInfo
  plugins : List PluginInfo
deriving DecidableEq, Repr

/-- src/analyze.rs `Analysis`; the plugin `HashMap` keyed by slug is embedded
as the association list the analyzer builds from the scan's plugin list. -/
structure Analysis where
  url : String
  wordpress : ComponentAnalysis
  theme : ComponentAnalysis
  plugins : List (String × ComponentAnalysis)
deriving DecidableEq, Repr

/-- src/analyze.rs `Analyzer::analyze_wordpress` (the `None if detected`
match guard becomes an `if`). -/
def analyze_wordpress (scan : ScanResult) : ComponentAnalysis :=
  match scan.wordpress_version with
  | some version =>
    ComponentAnalysis.new .core "WordPress" (some version) scan.wordpress_latest
  | none =>
    if scan.wordpress_detected then
      ComponentAnalysis.new .core "WordPress" none scan.wordpress_latest
    else
      ComponentAnalysis.not_detected .core "WordPress"

/-- src/analyze.rs `Analyzer::analyze_theme`. -/
def analyze_theme (scan : ScanResult) : ComponentAnalysis :=
  match scan.theme with
  | some theme =>
    ComponentAnalysis.new .theme theme.slug theme.version theme.latest_version
  | none => ComponentAnalysis.not_detected .theme "-"

/-- src/analyze.rs `Analyzer::analyze_plugins`. -/
def analyze_plugins (scan : ScanResult) : List (String × ComponentAnalysis) :=
  scan.plugins.map (fun plugin =>
    (plugin.slug,
      ComponentAnalysis.new .plugin plugin.slug plugin.version plugin.latest_version))

/-- src/analyze.rs `Analyzer::analyze`. -/
def analyze (scan : ScanResult) : Analysis :=
  { url := scan.url
    wordpress := analyze_wordpress scan
    theme := analyze_theme scan
    plugins := analyze_plugins scan }

/-- Claim C2's classification rules read literally: presence and unknownness
are judged on the optional inputs themselves, and whenever both versions are
supplied the comparison decides. -/
def spec_status (present : Bool) (version latest : Option String) :
    ComponentStatus :=
  if !present then .notDetected
  else
    match version with
    | none => .unknown
    | some v =>
      match latest with
      | none => .ok
      | some l =>
        match compare_versions v l with
        | .lt => .outdated
        | _ => .ok

/-- Claim C2 amended: an input equal to the literal sentinel `"-"` counts as
unknown, because the analyzer substitutes `"-"` for missing values and then
decides by string equality with the sentinel. -/
def spec_status_amended (present : Bool) (version latest : Option String) :
    ComponentStatus :=
  if !present then .notDetected
  else
    match version with
    | none => .unknown
    | some v =>
      if v = UNKNOWN_VERSION then .unknown
      else
        match latest with
        | none => .ok
        | some l =>
          if l = UNKNOWN_VERSION then .ok
          else
            match compare_versions v l with
            | .lt => .outdated
            | _ => .ok

/-- A scan result exhibiting the sentinel collision: the scanner reports the
literal theme version `"-"` while the catalog knows a latest version. -/
def scanSentinel : ScanResult :=
  { url := "https://example.com/"
    wordpress_detected := false
    wordpress_version := none
    wordpress_latest := none
    theme := some { slug := "twentytwenty", version := some "-",
                    latest_version := some "1.0" }
    plugins := [] }

/-! ## src/scanner.rs : `Scanner::is_internal_ip` -/

/-- An IPv4 address as its four octets. -/
structure Ipv4 where
  o0 : Nat
  o1 : Nat
  o2 : Nat
  o3 : Nat
deriving DecidableEq, Repr

/-- An IPv6 address as its eight 16-bit segments. -/
structure Ipv6 where
  s0 : Nat
  s1 : Nat
  s2 : Nat
  s3 : Nat
  s4 : Nat
  s5 : Nat
  s6 : Nat
  s7 : Nat
deriving DecidableEq, Repr

/-- Rust `std::net::IpAddr`. -/
inductive IpAddr
  | v4 : Ipv4 → IpAddr
  | v6 : Ipv6 → IpAddr
deriving DecidableEq, Repr

/-- Rust `Ipv4Addr::is_loopback`: 127.0.0.0/8. -/
def Ipv4.is_loopback (ip : Ipv4) : Bool := ip.o0 == 127

/-- Rust `Ipv4Addr::is_private`: 10.0.0.0/8, 172.16.0.0/12, 192.168.0.0/16. -/
def Ipv4.is_private (ip : Ipv4) : Bool :=
  ip.o0 == 10 ||
  (ip.o0 == 172 && decide (16 ≤ ip.o1) && decide (ip.o1 ≤ 31)) ||
  (ip.o0 == 192 && ip.o1 == 168)

/-- Rust `Ipv4Addr::is_link_local`: 169.254.0.0/16. -/
def Ipv4.is_link_local (ip : Ipv4) : Bool := ip.o0 == 169 && ip.o1 == 254

/-- Rust `Ipv4Addr::is_broadcast`: 255.255.255.255. -/
def Ipv4.is_broadcast (ip : Ipv4) : Bool :=
  ip.o0 == 255 && ip.o1 == 255 && ip.o2 == 255 && ip.o3 == 255

/-- Rust `Ipv4Addr::is_unspecified`: 0.0.0.0. -/
def Ipv4.is_unspecified (ip : Ipv4) : Bool :=
  ip.o0 == 0 && ip.o1 == 0 && ip.o2 == 0 && ip.o3 == 0

/-- Rust `Ipv6Addr::is_loopback`: `::1`. -/
def Ipv6.is_loopback (ip : Ipv6) : Bool :=
  ip.s0 == 0 && ip.s1 == 0 && ip.s2 == 0 && ip.s3 == 0 &&
  ip.s4 == 0 && ip.s5 == 0 && ip.s6 == 0 && ip.s7 == 1

/-- Rust `Ipv6Addr::is_unspecified`: `::`. -/
def Ipv6.is_unspecified (ip : Ipv6) : Bool :=
  ip.s0 == 0 && ip.s1 == 0 && ip.s2 == 0 && ip.s3 == 0 &&
  ip.s4 == 0 && ip.s5 == 0 && ip.s6 == 0 && ip.s7 == 0

/-- src/scanner.rs `Scanner::is_internal_ip`.  Rust's `&&`-over-`||`
precedence groups the shared-address-space test into one conjunct, and the
final slice comparison `octets()[..2] == [192, 0]` tests only the first two
octets. -/
def is_internal_ip : IpAddr → Bool
  | .v4 ipv4 =>
    ipv4.is_loopback || ipv4.is_private || ipv4.is_link_local ||
    ipv4.is_broadcast || ipv4.is_unspecified ||
    (ipv4.o0 == 100 && decide (64 ≤ ipv4.o1) && decide (ipv4.o1 ≤ 127)) ||
    (ipv4.o0 == 169 && ipv4.o1 == 254 && ipv4.o2 == 169 && ipv4.o3 == 254) ||
    (ipv4.o0 == 192 && ipv4.o1 == 0)
  | .v6 ipv6 =>
    ipv6.is_loopback || ipv6.is_unspecified ||
    (ipv6.s0 &&& 0xfe00) == 0xfc00 ||
    (ipv6.s0 &&& 0xffc0) == 0xfe80

/-- Claim C5's list of internal addresses read literally, with the
documentation block 192.0.0.0/24 (first three octets 192.0.0). -/
def spec_internal_ip : IpAddr → Bool
  | .v4 p =>
    p.o0 == 127 ||
    (p.o0 == 10 || (p.o0 == 172 && decide (16 ≤ p.o1) && decide (p.o1 ≤ 31)) ||
      (p.o0 == 192 && p.o1 == 168)) ||
    (p.o0 == 169 && p.o1 == 254) ||
    (p.o0 == 255 && p.o1 == 255 && p.o2 == 255 && p.o3 == 255) ||
    (p.o0 == 0 && p.o1 == 0 && p.o2 == 0 && p.o3 == 0) ||
    (p.o0 == 100 && decide (64 ≤ p.o1) && decide (p.o1 ≤ 127)) ||
    (p.o0 == 169 && p.o1 == 254 && p.o2 == 169 && p.o3 == 254) ||
    (p.o0 == 192 && p.o1 == 0 && p.o2 == 0)
  | .v6 q =>
    (q.s0 == 0 && q.s1 == 0 && q.s2 == 0 && q.s3 == 0 &&
      q.s4 == 0 && q.s5 == 0 && q.s6 == 0 && q.s7 == 1) ||
    (q.s0 == 0 && q.s1 == 0 && q.s2 == 0 && q.s3 == 0 &&
      q.s4 == 0 && q.s5 == 0 && q.s6 == 0 && q.s7 == 0) ||
    (q.s0 &&& 0xfe00) == 0xfc00 ||
    (q.s0 &&& 0xffc0) == 0xfe80

/-- Claim C5 amended: the same list, with the final IPv4 block being all of
192.0.0.0/16 (first two octets 192.0) as the code actually tests. -/
def spec_internal_ip_amended : IpAddr → Bool
  | .v4 p =>
    p.o0 == 127 ||
    (p.o0 == 10 || (p.o0 == 172 && decide (16 ≤ p.o1) && decide (p.o1 ≤ 31)) ||
      (p.o0 == 192 && p.o1 == 168)) ||
    (p.o0 == 169 && p.o1 == 254) ||
    (p.o0 == 255 && p.o1 == 255 && p.o2 == 255 && p.o3 == 255) ||
    (p.o0 == 0 && p.o1 == 0 && p.o2 == 0 && p.o3 == 0) ||
    (p.o0 == 100 && decide (64 ≤ p.o1) && decide (p.o1 ≤ 127)) ||
    (p.o0 == 169 && p.o1 == 254 && p.o2 == 169 && p.o3 == 254) ||
    (p.o0 == 192 && p.o1 == 0)
  | .v6 q =>
    (q.s0 == 0 && q.s1 == 0 && q.s2 == 0 && q.s3 == 0 &&
      q.s4 == 0 && q.s5 == 0 && q.s6 == 0 && q.s7 == 1) ||
    (q.s0 == 0 && q.s1 == 0 && q.s2 == 0 && q.s3 == 0 &&
      q.s4 == 0 && q.s5 == 0 && q.s6 == 0 && q.s7 == 0) ||
    (q.s0 &&& 0xfe00) == 0xfc00 ||
    (q.s0 &&& 0xffc0) == 0xfe80

/-! ## src/error.rs and src/scanner.rs : URL validation -/

/-- src/error.rs `Error`; the I/O and serde payloads are carried as plain
strings, and interpolated text in messages is dropped. -/
inductive Error
  | invalidUrl : String → Error
  | httpClient : String → Error
  | httpRequest : String → Error
  | httpStatus : Nat → Error
  | notWordPress : Error
  | invalidOutputFormat : String → Error
  | invalidOutputDetail : String → Error
  | invalidOutputSort : String → Error
  | outputFailed : String → Error
  | serializationFailed : String → Error
deriving DecidableEq, Repr

/-- A parsed `url::Url` as the validator consumes it: the scheme, the host
string as `Url::host_str` reports it (lowercased by the parser), and any
explicit port. -/
structure UrlModel where
  scheme : String
  host : Option String
  port : Option Nat
deriving DecidableEq, Repr

/-- src/scanner.rs `ALLOWED_SCHEMES`. -/
def ALLOWED_SCHEMES : List String := ["http", "https"]

/-- Rust `str::ends_with` on strings. -/
def sEndsWith (s p : String) : Bool := p.data.isSuffixOf s.data

/-- src/scanner.rs `Scanner::validate_host`.  DNS resolution is an oracle
from host and port to the resolved addresses, with `none` standing for
resolution failure (`to_socket_addrs` returning `Err`). -/
def validate_host (u : UrlModel) (dns : String → Nat → Option (List IpAddr)) :
    Except Error Unit :=
  match u.host with
  | none => .error (.invalidUrl "missing host")
  | some host =>
    if host == "localhost" || sEndsWith host ".localhost" then
      .error (.invalidUrl "localhost not allowed")
    else
      let port := u.port.getD (if u.scheme == "https" then 443 else 80)
      match dns host port with
      | some addrs =>
        match addrs.find? is_internal_ip with
        | some _ => .error (.invalidUrl "internal/private IP address not allowed")
        | none => .ok ()
      | none => .ok ()

/-- The validation phase of src/scanner.rs `Scanner::build_internal`: scheme
check first, then (unless private addresses are allowed) the host check;
runs before the HTTP client is built, hence before any request. -/
def build_internal_validate (u : UrlModel) (allow_private : Bool)
    (dns : String → Nat → Option (List IpAddr)) : Except Error Unit :=
  if !(ALLOWED_SCHEMES.contains u.scheme) then
    .error (.invalidUrl "scheme not allowed (use http or https)")
  else if !allow_private then validate_host u dns
  else .ok ()

/-! ## src/scanner.rs : `Scanner::scan` and `Scanner::fetch_page` -/

/-- The network environment a scan runs against: the homepage HTTP response
(`none` is a transport failure, otherwise status code and body text), and
the results of the best-effort sub-probes, each already an `Option`/list
because the corresponding Rust helpers swallow their own failures (`.ok()?`
on every fetch and parse).  The probes that read the homepage document are
functions of its body. -/
structure ScanEnv where
  url : String
  homepage : Option (Nat × String)
  detectVersion : String → Option String
  restApi : Option Unit
  cookies : Option Unit
  latest : Option String
  themeOf : String → Option ThemeInfo
  pluginsOf : String → List PluginInfo

/-- src/scanner.rs `Scanner::fetch_page`: a transport failure becomes
`HttpRequest`, a non-2xx status becomes `HttpStatus` carrying the code,
otherwise the body text is returned (`is_success` is 200..=299). -/
def fetch_page (resp : Option (Nat × String)) : Except Error String :=
  match resp with
  | none => .error (.httpRequest "request failed")
  | some (status, body) =>
    if 200 ≤ status ∧ status ≤ 299 then .ok body
    else .error (.httpStatus status)

/-- src/scanner.rs `Scanner::scan`: only the homepage fetch propagates an
error (the `?` on `fetch_page`); every other sub-probe result is folded into
the returned `ScanResult`. -/
def scan (env : ScanEnv) : Except Error ScanResult :=
  match fetch_page env.homepage with
  | .error e => .error e
  | .ok body =>
    let wordpress_version := env.detectVersion body
    let wordpress_detected :=
      wordpress_version.isSome || env.restApi.isSome || env.cookies.isSome
    .ok { url := env.url
          wordpress_detected := wordpress_detected
          wordpress_version := wordpress_version
          wordpress_latest := env.latest
          theme := env.themeOf body
          plugins := env.pluginsOf body }

/-! ## src/scanner.rs : core version detection -/

/-- Drop a leading exact character sequence, returning the remainder (Rust
`str::strip_prefix` on character lists). -/
def stripPreChars : List Char → List Char → Option (List Char)
  | [], s => some s
  | _ :: _, [] => none
  | c :: ps, d :: ds => if c = d then stripPreChars ps ds else none

/-- Whitespace as Rust's `str::trim` and the regex class `\s` see it,
restricted to the ASCII whitespace characters. -/
def wsChar (c : Char) : Bool :=
  c == ' ' || c == '\t' || c == '\n' || c == '\r' || c == '\x0b' || c == '\x0c'

/-- Rust `str::trim` on a character list. -/
def trimChars (l : List Char) : List Char :=
  ((l.dropWhile wsChar).reverse.dropWhile wsChar).reverse

/-- A `<meta>` element of the parsed homepage: its `name` and `content`
attributes. -/
structure MetaTag where
  name : Option String
  content : Option String
deriving DecidableEq, Repr

/-- The characters of `"WordPress"`. -/
def wpLit : List Char := ['W', 'o', 'r', 'd', 'P', 'r', 'e', 's', 's']

/-- The characters of `"WordPress "` (with trailing space). -/
def wpLitSpace : List Char := wpLit ++ [' ']

/-- src/scanner.rs `Scanner::detect_version_from_meta`: iterate the meta
tags matching `meta[name='generator']`; on a content starting with
`"WordPress"`, `strip_prefix("WordPress ")?` either strips the
space-terminated prefix or — through the `?` operator — aborts the whole
function with `None`; a nonempty trimmed remainder is returned, an empty one
lets the loop continue. -/
def detect_version_from_meta : List MetaTag → Option String
  | [] => none
  | t :: rest =>
    if t.name = some "generator" then
      match t.content with
      | some c =>
        if wpLit.isPrefixOf c.data then
          match stripPreChars wpLitSpace c.data with
          | none => none
          | some r =>
            let v := trimChars r
            if v ≠ [] then some (String.mk v) else detect_version_from_meta rest
        else detect_version_from_meta rest
      | none => detect_version_from_meta rest
    else detect_version_from_meta rest

/-- The version-pattern character class `[0-9.]`. -/
def verChar (c : Char) : Bool := c.isDigit || c == '.'

/-- Characters of the literal `wordpress.org/?v=` of the feed regex. -/
def feedLit : List Char :=
  ['w', 'o', 'r', 'd', 'p', 'r', 'e', 's', 's', '.', 'o', 'r', 'g',
   '/', '?', 'v', '=']

/-- Leftmost match of the regex `wordpress\.org/\?v=([0-9.]+)`
(src/scanner.rs `detect_version_from_feed`): at each position try the
literal followed by a nonempty greedy `[0-9.]` run; otherwise advance one
character. -/
def feedScan : List Char → Option (List Char)
  | [] => none
  | c :: rest =>
    match stripPreChars feedLit (c :: rest) with
    | some after =>
      let run := after.takeWhile verChar
      if run.isEmpty then feedScan rest else some run
    | none => feedScan rest

/-- Characters of the literal `Version` of the readme regex. -/
def readmeLit : List Char := ['V', 'e', 'r', 's', 'i', 'o', 'n']

/-- Leftmost match of the regex `Version\s+([0-9.]+)` (src/scanner.rs
`detect_version_from_readme`): the literal, one or more whitespace
characters, then a nonempty `[0-9.]` run; the two classes are disjoint, so
greedy matching needs no backtracking. -/
def readmeScan : List Char → Option (List Char)
  | [] => none
  | c :: rest =>
    match stripPreChars readmeLit (c :: rest) with
    | some after =>
      let ws := after.takeWhile wsChar
      let run := (after.drop ws.length).takeWhile verChar
      if ws.isEmpty || run.isEmpty then readmeScan rest else some run
    | none => readmeScan rest

/-- src/scanner.rs `Scanner::detect_version_from_feed`: a failed feed fetch
is `none`, otherwise the regex scan of the raw body. -/
def detect_version_from_feed (feedBody : Option String) : Option String :=
  feedBody.bind (fun t => (feedScan t.data).map String.mk)

/-- src/scanner.rs `Scanner::detect_version_from_readme`. -/
def detect_version_from_readme (readmeBody : Option String) : Option String :=
  readmeBody.bind (fun t => (readmeScan t.data).map String.mk)

/-- src/scanner.rs `Scanner::detect_wp_version`: the meta generator tag
first, then the feed, then readme.html; first success wins. -/
def detect_wp_version (tags : List MetaTag)
    (feedBody readmeBody : Option String) : Option String :=
  match detect_version_from_meta tags with
  | some version => some version
  | none =>
    match detect_version_from_feed feedBody with
    | some version => some version
    | none => detect_version_from_readme readmeBody

/-- The `content` attributes of the meta tags named `generator`, in document
order. -/
def generatorContents (tags : List MetaTag) : List String :=
  tags.filterMap (fun t => if t.name = some "generator" then t.content else none)

/-- Claim C7's step 1 read literally: the first generator tag whose content
begins with `"WordPress "` and carries a nonempty trimmed remainder yields
that remainder; every other tag is skipped and detection continues. -/
def spec_meta_claim (tags : List MetaTag) : Option String :=
  ((generatorContents tags).filterMap (fun c =>
    match stripPreChars wpLitSpace c.data with
    | some r =>
      let v := trimChars r
      if v ≠ [] then some (String.mk v) else none
    | none => none)).head?

/-- Claim C7 read literally: the three heuristics in order. -/
def spec_detect_claim (tags : List MetaTag)
    (feedBody readmeBody : Option String) : Option String :=
  match spec_meta_claim tags with
  | some version => some version
  | none =>
    match detect_version_from_feed feedBody with
    | some version => some version
    | none => detect_version_from_readme readmeBody

/-- Claim C7 amended, step 1: scan the generator-tag contents in order; a
content beginning `"WordPress"` without the trailing space aborts the meta
heuristic entirely (detection proceeds to the feed); a content beginning
`"WordPress "` with nonempty trimmed remainder yields it; anything else lets
the scan continue. -/
def spec_meta_amended : List String → Option String
  | [] => none
  | c :: rest =>
    if wpLit.isPrefixOf c.data then
      match stripPreChars wpLitSpace c.data with
      | none => none
      | some r =>
        let v := trimChars r
        if v ≠ [] then some (String.mk v) else spec_meta_amended rest
    else spec_meta_amended rest

/-- Claim C7 amended: the heuristics in order with the amended step 1. -/
def spec_detect_amended (tags : List MetaTag)
    (feedBody readmeBody : Option String) : Option String :=
  match spec_meta_amended (generatorContents tags) with
  | some version => some version
  | none =>
    match detect_version_from_feed feedBody with
    | some version => some version
    | none => detect_version_from_readme readmeBody

/-- The two-generator-tag homepage separating the claim from the code: the
first tag's content opens with `"WordPress"` but has no trailing space. -/
def tagsAbort : List MetaTag :=
  [{ name := some "generator", content := some "WordPressRocks" },
   { name := some "generator", content := some "WordPress 6.4" }]

/-! ## src/scanner.rs : theme detection -/

/-- A `<link>` element as the theme detector sees it: whether it matches the
selector `link[rel='stylesheet']`, and its `href` attribute. -/
structure LinkTag where
  relStylesheet : Bool
  href : Option String
deriving DecidableEq, Repr

/-- The homepage document for theme detection: the link elements in document
order, and the raw serialized markup for the fallback regex scan. -/
structure DocModel where
  links : List LinkTag
  html : String
deriving DecidableEq, Repr

/-- Characters of the literal `/wp-content/themes/`. -/
def themesLit : List Char :=
  ['/', 'w', 'p', '-', 'c', 'o', 'n', 't', 'e', 'n', 't', '/',
   't', 'h', 'e', 'm', 'e', 's', '/']

/-- Leftmost match of the regex `/wp-content/themes/([^/]+)/`: at each
position try the literal, then a nonempty greedy non-slash run that must be
followed by a slash; otherwise advance one character. -/
def themeSlugScan : List Char → Option (List Char)
  | [] => none
  | c :: rest =>
    match stripPreChars themesLit (c :: rest) with
    | some after =>
      let run := after.takeWhile (fun ch => ch != '/')
      if run.isEmpty then themeSlugScan rest
      else
        match after.drop run.length with
        | '/' :: _ => some run
        | _ => themeSlugScan rest
    | none => themeSlugScan rest

/-- The `ver=` token character class: Rust `is_ascii_alphanumeric`, dot,
hyphen, underscore (the code stops at the first character outside it). -/
def verTokenChar (c : Char) : Bool :=
  c.isAlphanum || c == '.' || c == '-' || c == '_'

/-- Rust `url.find("ver=")` plus slicing: the characters after the first
occurrence of the substring `ver=`, or `none` when absent. -/
def afterVerEq : List Char → Option (List Char)
  | [] => none
  | c :: rest =>
    match stripPreChars ['v', 'e', 'r', '='] (c :: rest) with
    | some after => some after
    | none => afterVerEq rest

/-- src/scanner.rs `Scanner::extract_theme_from_url`: the slug from the
first `/wp-content/themes/<slug>/` match, and — from the first `ver=`
substring anywhere in the URL — the following token run, normalized. -/
def extract_theme_from_url (url : String) : Option ThemeInfo :=
  match themeSlugScan url.data with
  | none => none
  | some slugChars =>
    let version :=
      match afterVerEq url.data with
      | some after =>
        some (normalize_version (String.mk (after.takeWhile verTokenChar)))
      | none => none
    some { slug := String.mk slugChars, version := version,
           latest_version := none }

/-- src/scanner.rs `Scanner::detect_theme`, link phase: walk the stylesheet
links in document order; the first href yielding a theme gets the catalog's
latest version attached (the catalog is an oracle from slug to version). -/
def themeLinkLoop (latestOf : String → Option String) :
    List LinkTag → Option ThemeInfo
  | [] => none
  | l :: rest =>
    if l.relStylesheet then
      match l.href with
      | some href =>
        match extract_theme_from_url href with
        | some t => some { t with latest_version := latestOf t.slug }
        | none => themeLinkLoop latestOf rest
      | none => themeLinkLoop latestOf rest
    else themeLinkLoop latestOf rest

/-- src/scanner.rs `Scanner::detect_theme`: stylesheet links first; only if
none matches, the raw-markup regex fallback, which never extracts an
installed version. -/
def detect_theme (doc : DocModel) (latestOf : String → Option String) :
    Option ThemeInfo :=
  match themeLinkLoop latestOf doc.links with
  | some t => some t
  | none =>
    match themeSlugScan doc.html.data with
    | some slugChars =>
      some { slug := String.mk slugChars, version := none,
             latest_version := latestOf (String.mk slugChars) }
    | none => none

/-- Split a character list at a separator character, Rust `str::split`
style: always at least one (possibly empty) piece. -/
def splitOnChar (sep : Char) : List Char → List (List Char)
  | [] => [[]]
  | c :: rest =>
    if c = sep then [] :: splitOnChar sep rest
    else
      match splitOnChar sep rest with
      | [] => [[c]]
      | s :: ss => (c :: s) :: ss

/-- The query string of a URL: everything after the first `?`, if any. -/
def queryPart : List Char → Option (List Char)
  | [] => none
  | c :: rest => if c = '?' then some rest else queryPart rest

/-- The value of a `name=value` piece when the name is exactly `ver`. -/
def verParamOf (p : List Char) : Option (List Char) :=
  let name := p.takeWhile (fun c => c != '=')
  match p.drop name.length with
  | '=' :: v => if name = ['v', 'e', 'r'] then some v else none
  | _ => none

/-- The value of the first query parameter named `ver`, reading the URL as
`path?name=value&name=value...`. -/
def verQueryParam (url : List Char) : Option (List Char) :=
  (queryPart url).bind (fun q => (splitOnChar '&' q).findSome? verParamOf)

/-- Claim C9's extractor read literally: the slug from the theme path
pattern, the version only from a query parameter named `ver`. -/
def spec_extract_claim (url : String) : Option ThemeInfo :=
  match themeSlugScan url.data with
  | none => none
  | some slugChars =>
    some { slug := String.mk slugChars
           version := (verQueryParam url.data).map
             (fun v => normalize_version (String.mk v))
           latest_version := none }

/-- Claim C9 read literally at the detector level: first matching
stylesheet link wins with query-parameter version extraction, else the
raw-markup fallback without a version. -/
def spec_theme_claim (doc : DocModel) (latestOf : String → Option String) :
    Option ThemeInfo :=
  match (((doc.links.filter LinkTag.relStylesheet).filterMap LinkTag.href).filterMap
      spec_extract_claim).head? with
  | some t => some { t with latest_version := latestOf t.slug }
  | none =>
    match themeSlugScan doc.html.data with
    | some slugChars =>
      some { slug := String.mk slugChars, version := none,
             latest_version := latestOf (String.mk slugChars) }
    | none => none

/-- Claim C9 amended at the detector level: the same first-match discipline,
but the version comes from the first `ver=` substring anywhere in the href
(the code's extractor). -/
def spec_theme_amended (doc : DocModel) (latestOf : String → Option String) :
    Option ThemeInfo :=
  match (((doc.links.filter LinkTag.relStylesheet).filterMap LinkTag.href).filterMap
      extract_theme_from_url).head? with
  | some t => some { t with latest_version := latestOf t.slug }
  | none =>
    match themeSlugScan doc.html.data with
    | some slugChars =>
      some { slug := String.mk slugChars, version := none,
             latest_version := latestOf (String.mk slugChars) }
    | none => none

/-- The stylesheet href separating the claim from the code: its only query
parameter is named `clever`, whose text contains the substring `ver=`. -/
def docCleverHref : DocModel :=
  { links := [{ relStylesheet := true,
                href := some "/wp-content/themes/foo/style.css?clever=9.9" }]
    html := "" }

/-! ## Theorems -/

theorem padTo_nil (n : Nat) : padTo n [] = List.replicate n 0 := by
  simp [padTo]

theorem padTo_self (xs : List Nat) : padTo xs.length xs = xs := by
  simp [padTo, Nat.sub_self]

theorem padTo_succ_cons (n x : Nat) (xs : List Nat) :
    padTo (n + 1) (x :: xs) = x :: padTo n xs := by
  simp [padTo, Nat.succ_sub_succ]

theorem zeroCmpLoop_spec (ys : List Nat) :
    zeroCmpLoop ys = firstDiffCmp ((List.replicate ys.length 0).zip ys) := by
  induction ys with
  | nil => rfl
  | cons y ys ih =>
    cases h : compare 0 y <;>
      simp [zeroCmpLoop, firstDiffCmp, List.replicate, List.zip, h, ih]

theorem numCmpLoop_nil_right (xs : List Nat) :
    numCmpLoop xs [] = firstDiffCmp (xs.zip (List.replicate xs.length 0)) := by
  induction xs with
  | nil => rfl
  | cons x xs ih =>
    cases h : compare x 0 <;>
      simp [numCmpLoop, firstDiffCmp, List.replicate, List.zip, h, ih]

theorem numCmpLoop_spec (xs ys : List Nat) :
    numCmpLoop xs ys =
      firstDiffCmp ((padTo (max xs.length ys.length) xs).zip
        (padTo (max xs.length ys.length) ys)) := by
  induction xs generalizing ys with
  | nil =>
    simp only [numCmpLoop, List.length_nil, Nat.zero_max, padTo_nil]
    rw [padTo_self]
    exact zeroCmpLoop_spec ys
  | cons x xs ih =>
    cases ys with
    | nil =>
      simp only [List.length_nil, Nat.max_zero, padTo_nil]
      rw [padTo_self]
      exact numCmpLoop_nil_right (x :: xs)
    | cons y ys =>
      simp only [List.length_cons, Nat.succ_max_succ, padTo_succ_cons,
        List.zip_cons_cons]
      cases h : compare x y <;>
        simp [numCmpLoop, firstDiffCmp, h, ih]

/-- C1: `compare_versions` implements the spec's algorithm — split each
string at the first `-`/ASCII-letter, parse the leading part as dot-separated
unsigned integers dropping unparseable segments, zero-pad the shorter numeric
sequence and compare component-wise left to right, and when all numeric
components are equal a version with no suffix is greater than one with a
suffix while two versions that both or neither carry a suffix are equal; in
particular the four quoted example comparisons hold. -/
theorem c1_compare_versions_matches_spec :
    (∀ a b : String, compare_versions a b = spec_compare a b) ∧
    compare_versions "2.0.0" "1.9.9" = .gt ∧
    compare_versions "1.2" "1.2.0" = .eq ∧
    compare_versions "7.0" "7.0-alpha" = .gt ∧
    compare_versions "7.0-alpha" "7.0-beta" = .eq := by
  refine ⟨?_, by decide, by decide, by decide, by decide⟩
  intro a b
  rcases hpa : parse_version a.data with ⟨pa, sa⟩
  rcases hpb : parse_version b.data with ⟨pb, sb⟩
  simp only [compare_versions, spec_compare, hpa, hpb]
  rw [numCmpLoop_spec]
  rcases firstDiffCmp ((padTo (max pa.length pb.length) pa).zip
      (padTo (max pa.length pb.length) pb)) with _ | _ | _ <;>
    cases sa <;> cases sb <;> rfl

theorem componentAnalysis_new_status (t : ComponentType) (n : String)
    (version latest : Option String) :
    (ComponentAnalysis.new t n version latest).status =
      spec_status_amended true version latest := by
  cases version with
  | none => simp [ComponentAnalysis.new, spec_status_amended]
  | some v =>
    by_cases hv : v = UNKNOWN_VERSION
    · simp [ComponentAnalysis.new, spec_status_amended, hv]
    · cases latest with
      | none => simp [ComponentAnalysis.new, spec_status_amended, hv]
      | some l =>
        by_cases hl : l = UNKNOWN_VERSION
        · simp [ComponentAnalysis.new, spec_status_amended, hv, hl]
        · cases hc : compare_versions v l <;>
            simp [ComponentAnalysis.new, spec_status_amended, hv, hl, hc]

/-- C2 (counterexample): on the scan result whose theme carries the literal
installed version `"-"` and a known latest version, the analyzer reports
`Unknown`, while the claim's rules — installed known, latest known, so the
comparison decides — demand `Outdated`. -/
theorem c2_counterexample :
    (analyze scanSentinel).theme.status = ComponentStatus.unknown ∧
    spec_status scanSentinel.theme.isSome
      (scanSentinel.theme.bind ThemeInfo.version)
      (scanSentinel.theme.bind ThemeInfo.latest_version) =
        ComponentStatus.outdated := by
  constructor
  · decide
  · decide

/-- C2 (amended): the analyzer classifies every component slot by the claim's
rules once "unknown" is read as "missing or equal to the literal sentinel
dash": NotDetected when the component is absent, Unknown when its installed
version is missing or `"-"`, Ok when the latest version is missing or
`"-"`, and otherwise Outdated exactly when the comparison says less. -/
theorem c2_analyzer_statuses_amended (scan : ScanResult) :
    (analyze scan).wordpress.status =
      spec_status_amended (scan.wordpress_version.isSome || scan.wordpress_detected)
        scan.wordpress_version scan.wordpress_latest ∧
    (analyze scan).theme.status =
      spec_status_amended scan.theme.isSome (scan.theme.bind ThemeInfo.version)
        (scan.theme.bind ThemeInfo.latest_version) ∧
    (analyze scan).plugins = scan.plugins.map (fun p =>
      (p.slug, ComponentAnalysis.new .plugin p.slug p.version p.latest_version)) ∧
    ∀ p ∈ scan.plugins,
      (ComponentAnalysis.new .plugin p.slug p.version p.latest_version).status =
        spec_status_amended true p.version p.latest_version := by
  refine ⟨?_, ?_, rfl, fun p _ => componentAnalysis_new_status ..⟩
  · show (analyze_wordpress scan).status = _
    cases hv : scan.wordpress_version with
    | some v =>
      simp only [analyze_wordpress, hv, Option.isSome_some, Bool.true_or]
      exact componentAnalysis_new_status ..
    | none =>
      cases hd : scan.wordpress_detected with
      | true =>
        simp only [analyze_wordpress, hv, hd, if_true, Option.isSome_none,
          Bool.false_or]
        exact componentAnalysis_new_status ..
      | false =>
        simp [analyze_wordpress, hv, hd, ComponentAnalysis.not_detected,
          spec_status_amended]
  · show (analyze_theme scan).status = _
    cases ht : scan.theme with
    | some theme =>
      simp only [analyze_theme, ht, Option.isSome_some, Option.some_bind]
      exact componentAnalysis_new_status ..
    | none =>
      simp [analyze_theme, ht, ComponentAnalysis.not_detected,
        spec_status_amended]

/-- C2 (amended, witness): the amended rules applied to a concrete scan. -/
theorem c2_analyzer_statuses_amended_witness :
    (ComponentAnalysis.new .plugin "akismet" (some "5.3") (some "5.4")).status =
      spec_status_amended true (some "5.3") (some "5.4") :=
  (c2_analyzer_statuses_amended
    { url := "https://example.com/"
      wordpress_detected := true
      wordpress_version := some "6.4.2"
      wordpress_latest := some "6.5"
      theme := none
      plugins := [{ slug := "akismet", version := some "5.3",
                    latest_version := some "5.4" }] }).2.2.2
    { slug := "akismet", version := some "5.3", latest_version := some "5.4" }
    (by simp)

/-- C10: the analyzer decides by string equality with the sentinel `"-"`
after substitution, not by presence: a supplied installed version that is
literally `"-"` classifies exactly as if none had been detected (Unknown, and
the whole analysis record coincides), and a supplied latest version literally
`"-"` with a known installed version classifies Ok with no comparison. -/
theorem c10_sentinel_equality_rules :
    (∀ (t : ComponentType) (n : String) (latest : Option String),
      ComponentAnalysis.new t n (some "-") latest =
        ComponentAnalysis.new t n none latest ∧
      (ComponentAnalysis.new t n (some "-") latest).status =
        ComponentStatus.unknown) ∧
    (∀ (t : ComponentType) (n v : String), v ≠ "-" →
      (ComponentAnalysis.new t n (some v) (some "-")).status =
        ComponentStatus.ok) := by
  constructor
  · intro t n latest
    constructor
    · simp [ComponentAnalysis.new, UNKNOWN_VERSION]
    · simp [ComponentAnalysis.new, UNKNOWN_VERSION]
  · intro t n v hv
    simp [ComponentAnalysis.new, UNKNOWN_VERSION, hv]

/-- C10 (witness): the sentinel rules at the concrete version `"1.0"`. -/
theorem c10_sentinel_equality_rules_witness :
    ("1.0" : String) ≠ "-" ∧
    (ComponentAnalysis.new .plugin "akismet" (some "1.0") (some "-")).status =
      ComponentStatus.ok :=
  ⟨by decide, c10_sentinel_equality_rules.2 .plugin "akismet" "1.0" (by decide)⟩

/-- C5 (counterexample): 192.0.100.1 sits outside every block the claim
lists (its documentation block being 192.0.0.0/24), yet `is_internal_ip`
accepts every 192.0.x.y address, because the code compares only the first
two octets against `[192, 0]`. -/
theorem c5_counterexample :
    is_internal_ip (.v4 ⟨192, 0, 100, 1⟩) = true ∧
    spec_internal_ip (.v4 ⟨192, 0, 100, 1⟩) = false := by
  constructor
  · decide
  · decide

/-- C5 (amended): `is_internal_ip` returns true exactly for the claim's
address list with the documentation block widened to 192.0.0.0/16, and in
particular returns false for the public address 8.8.8.8. -/
theorem c5_is_internal_ip_amended :
    (∀ ip : IpAddr, is_internal_ip ip = spec_internal_ip_amended ip) ∧
    is_internal_ip (.v4 ⟨8, 8, 8, 8⟩) = false := by
  refine ⟨?_, by decide⟩
  intro ip
  cases ip with
  | v4 p =>
    simp [is_internal_ip, spec_internal_ip_amended, Ipv4.is_loopback,
      Ipv4.is_private, Ipv4.is_link_local, Ipv4.is_broadcast,
      Ipv4.is_unspecified, Bool.or_assoc]
  | v6 q =>
    simp [is_internal_ip, spec_internal_ip_amended, Ipv6.is_loopback,
      Ipv6.is_unspecified]

theorem paren_notDigit : Char.isDigit '(' = false := by decide

theorem paren_notHex : isHexDigitRust '(' = false := by decide

theorem normalizeCore_no_digit_no_hex (w : List Char)
    (hd : w.all Char.isDigit = false) (hh : w.all isHexDigitRust = false) :
    normalizeCore w = w := by
  simp [normalizeCore, hd, hh]

theorem normalizeCore_masked (l : List Char) :
    normalizeCore ('(' :: l) = '(' :: l :=
  normalizeCore_no_digit_no_hex _ (by simp [List.all_cons, paren_notDigit])
    (by simp [List.all_cons, paren_notHex])

/-- C3: `normalize_version` agrees everywhere with the spec's normalizer —
timestamp mask for 10-digit tokens beginning 1 or 2, hash mask with the first
seven characters for all-hex not-all-digit tokens of length exactly 40 or at
least 7, everything else unchanged — and the four quoted examples hold. -/
theorem c3_normalize_version_matches_spec :
    (∀ t : String, normalize_version t = spec_normalize t) ∧
    normalize_version "1748271784" = "(timestamp:1748271784)" ∧
    normalize_version "569ab5664387d06c16a234c9771d3d57fb15720a" = "(hash:569ab56)" ∧
    normalize_version "1.2.3" = "1.2.3" ∧
    normalize_version "20200121" = "20200121" := by
  refine ⟨?_, by decide, by decide, by decide, by decide⟩
  intro t
  unfold normalize_version normalizeCore spec_normalize
  by_cases h1 : t.data.length = 10 ∧ t.data.all Char.isDigit ∧ headIs12 t.data
  · rw [if_pos h1, if_pos h1]
  · rw [if_neg h1, if_neg h1]
    by_cases h2 : (t.data.length = 40 ∨ 7 ≤ t.data.length) ∧
        t.data.all isHexDigitRust ∧ ¬ t.data.all Char.isDigit
    · have h2s : t.data.all isHexDigitRust ∧ (¬ t.data.all Char.isDigit) ∧
          (t.data.length = 40 ∨ 7 ≤ t.data.length) := ⟨h2.2.1, h2.2.2, h2.1⟩
      rw [if_pos h2, if_pos h2s]
      have h7 : (if 7 < t.data.length then t.data.take 7 else t.data) =
          t.data.take 7 := by
        by_cases h3 : 7 < t.data.length
        · rw [if_pos h3]
        · rw [if_neg h3, List.take_of_length_le (Nat.le_of_not_lt h3)]
      rw [h7]
    · have h2s : ¬ (t.data.all isHexDigitRust ∧ (¬ t.data.all Char.isDigit) ∧
          (t.data.length = 40 ∨ 7 ≤ t.data.length)) :=
        fun h => h2 ⟨h.2.2, h.1, h.2.1⟩
      rw [if_neg h2, if_neg h2s]

/-- C4: `normalize_version` is idempotent: both masked forms open with a
parenthesis, which is neither a digit nor a hex digit, so a second
application always falls through to the identity branch. -/
theorem c4_normalize_version_idempotent :
    ∀ x : String, normalize_version (normalize_version x) = normalize_version x := by
  intro x
  suffices h : normalizeCore (normalizeCore x.data) = normalizeCore x.data by
    simp [normalize_version, h]
  by_cases h1 : x.data.length = 10 ∧ x.data.all Char.isDigit ∧ headIs12 x.data
  · have hout : normalizeCore x.data = tsPre ++ x.data ++ [')'] := by
      simp only [normalizeCore]
      rw [if_pos h1]
    rw [hout]
    simp only [tsPre, List.cons_append]
    exact normalizeCore_masked _
  · by_cases h2 : (x.data.length = 40 ∨ 7 ≤ x.data.length) ∧
        x.data.all isHexDigitRust ∧ ¬ x.data.all Char.isDigit
    · have hout : normalizeCore x.data =
          hashPre ++ (if 7 < x.data.length then x.data.take 7 else x.data) ++ [')'] := by
        simp only [normalizeCore]
        rw [if_neg h1, if_pos h2]
      rw [hout]
      simp only [hashPre, List.cons_append]
      exact normalizeCore_masked _
    · have hout : normalizeCore x.data = x.data := by
        simp only [normalizeCore]
        rw [if_neg h1, if_neg h2]
      rw [hout, hout]

theorem validate_host_some_eq (scheme : String) (uport : Option Nat)
    (host : String) (dns : String → Nat → Option (List IpAddr)) :
    validate_host ⟨scheme, some host, uport⟩ dns =
      (if host == "localhost" || sEndsWith host ".localhost" then
        .error (.invalidUrl "localhost not allowed")
      else
        match dns host (uport.getD (if scheme == "https" then 443 else 80)) with
        | some addrs =>
          match addrs.find? is_internal_ip with
          | some _ =>
            .error (.invalidUrl "internal/private IP address not allowed")
          | none => .ok ()
        | none => .ok ()) := rfl

theorem build_validate_scheme_ok (u : UrlModel)
    (dns : String → Nat → Option (List IpAddr))
    (hs : ALLOWED_SCHEMES.contains u.scheme = true) :
    build_internal_validate u false dns = validate_host u dns := by
  simp only [build_internal_validate, hs, Bool.not_true, Bool.not_false]
  rfl

theorem validate_host_error_invalidUrl (u : UrlModel)
    (dns : String → Nat → Option (List IpAddr)) (e : Error)
    (he : validate_host u dns = .error e) : ∃ m, e = .invalidUrl m := by
  obtain ⟨scheme, hostOpt, uport⟩ := u
  cases hostOpt with
  | none =>
    have he' : Except.error (Error.invalidUrl "missing host") =
        Except.error e := he
    injection he' with h1
    exact ⟨_, h1.symm⟩
  | some host =>
    rw [validate_host_some_eq] at he
    by_cases hl : (host == "localhost" || sEndsWith host ".localhost") = true
    · rw [if_pos hl] at he
      injection he with h1
      exact ⟨_, h1.symm⟩
    · rw [if_neg hl] at he
      cases hdns : dns host (uport.getD (if scheme == "https" then 443 else 80)) with
      | none =>
        rw [hdns] at he
        have he' : (Except.ok () : Except Error Unit) = Except.error e := he
        exact Except.noConfusion he'
      | some addrs =>
        rw [hdns] at he
        have he' : (match addrs.find? is_internal_ip with
            | some _ =>
              Except.error (Error.invalidUrl "internal/private IP address not allowed")
            | none => (Except.ok () : Except Error Unit)) = Except.error e := he
        cases hf : addrs.find? is_internal_ip with
        | none =>
          rw [hf] at he'
          have he'' : (Except.ok () : Except Error Unit) = Except.error e := he'
          exact Except.noConfusion he''
        | some a =>
          rw [hf] at he'
          have he'' :
              Except.error (Error.invalidUrl "internal/private IP address not allowed") =
                Except.error e := he'
          injection he'' with h1
          exact ⟨_, h1.symm⟩

/-- C6: scanner construction validates before any request: a non-http(s)
scheme is rejected with InvalidUrl regardless of the allow-private flag;
with the flag set only scheme validation applies; with the flag unset a host
equal to `localhost` or ending in `.localhost` is rejected, a host resolving
to some internal address is rejected, DNS-resolution failure lets the URL
proceed (fail-open), and InvalidUrl is the only validator error kind. -/
theorem c6_build_validation :
    (∀ (u : UrlModel) (flag : Bool) (dns : String → Nat → Option (List IpAddr)),
      ALLOWED_SCHEMES.contains u.scheme = false →
      build_internal_validate u flag dns =
        .error (.invalidUrl "scheme not allowed (use http or https)")) ∧
    (∀ (u : UrlModel) (dns : String → Nat → Option (List IpAddr)),
      ALLOWED_SCHEMES.contains u.scheme = true →
      build_internal_validate u true dns = .ok ()) ∧
    (∀ (u : UrlModel) (dns : String → Nat → Option (List IpAddr)) (h : String),
      ALLOWED_SCHEMES.contains u.scheme = true → u.host = some h →
      (h == "localhost" || sEndsWith h ".localhost") = true →
      build_internal_validate u false dns =
        .error (.invalidUrl "localhost not allowed")) ∧
    (∀ (u : UrlModel) (dns : String → Nat → Option (List IpAddr)) (h : String),
      ALLOWED_SCHEMES.contains u.scheme = true → u.host = some h →
      (h == "localhost" || sEndsWith h ".localhost") = false →
      dns h (u.port.getD (if u.scheme == "https" then 443 else 80)) = none →
      build_internal_validate u false dns = .ok ()) ∧
    (∀ (u : UrlModel) (dns : String → Nat → Option (List IpAddr)) (h : String)
      (addrs : List IpAddr),
      ALLOWED_SCHEMES.contains u.scheme = true → u.host = some h →
      (h == "localhost" || sEndsWith h ".localhost") = false →
      dns h (u.port.getD (if u.scheme == "https" then 443 else 80)) = some addrs →
      ((∃ a ∈ addrs, is_internal_ip a = true) →
        build_internal_validate u false dns =
          .error (.invalidUrl "internal/private IP address not allowed")) ∧
      ((∀ a ∈ addrs, is_internal_ip a = false) →
        build_internal_validate u false dns = .ok ())) ∧
    (∀ (u : UrlModel) (flag : Bool) (dns : String → Nat → Option (List IpAddr))
      (e : Error),
      build_internal_validate u flag dns = .error e → ∃ m, e = .invalidUrl m) := by
  refine ⟨?_, ?_, ?_, ?_, ?_, ?_⟩
  · intro u flag dns hs
    simp only [build_internal_validate, hs, Bool.not_false]
    rfl
  · intro u dns hs
    simp only [build_internal_validate, hs, Bool.not_true]
    rfl
  · intro u dns h hs hh hl
    obtain ⟨scheme, hostOpt, uport⟩ := u
    have hh' : hostOpt = some h := hh
    subst hh'
    rw [build_validate_scheme_ok _ dns hs, validate_host_some_eq, if_pos hl]
  · intro u dns h hs hh hl hd
    obtain ⟨scheme, hostOpt, uport⟩ := u
    have hh' : hostOpt = some h := hh
    subst hh'
    have hd' : dns h (uport.getD (if scheme == "https" then 443 else 80)) =
        none := hd
    rw [build_validate_scheme_ok _ dns hs, validate_host_some_eq,
      if_neg (by simp [hl]), hd']
  · intro u dns h addrs hs hh hl hd
    obtain ⟨scheme, hostOpt, uport⟩ := u
    have hh' : hostOpt = some h := hh
    subst hh'
    have hd' : dns h (uport.getD (if scheme == "https" then 443 else 80)) =
        some addrs := hd
    constructor
    · intro hex
      have hfind : (addrs.find? is_internal_ip).isSome := by
        rw [List.find?_isSome]
        exact hex
      rw [build_validate_scheme_ok _ dns hs, validate_host_some_eq,
        if_neg (by simp [hl]), hd']
      show (match addrs.find? is_internal_ip with
        | some _ =>
          Except.error (Error.invalidUrl "internal/private IP address not allowed")
        | none => (Except.ok () : Except Error Unit)) = _
      cases hf : addrs.find? is_internal_ip with
      | none => rw [hf] at hfind; exact absurd hfind (by simp)
      | some a => exact rfl
    · intro hall
      have hfind : addrs.find? is_internal_ip = none := by
        rw [List.find?_eq_none]
        intro a ha
        simp [hall a ha]
      rw [build_validate_scheme_ok _ dns hs, validate_host_some_eq,
        if_neg (by simp [hl]), hd']
      show (match addrs.find? is_internal_ip with
        | some _ =>
          Except.error (Error.invalidUrl "internal/private IP address not allowed")
        | none => (Except.ok () : Except Error Unit)) = _
      rw [hfind]
  · intro u flag dns e he
    unfold build_internal_validate at he
    split at he
    · injection he with h1
      exact ⟨_, h1.symm⟩
    · split at he
      · exact validate_host_error_invalidUrl u dns e he
      · exact Except.noConfusion he

/-- C6 (witness): the validator at the concrete rejected URL
`http://localhost` with an always-failing DNS oracle. -/
theorem c6_build_validation_witness :
    ALLOWED_SCHEMES.contains "http" = true ∧
    build_internal_validate ⟨"http", some "localhost", none⟩ false
      (fun _ _ => none) = .error (.invalidUrl "localhost not allowed") :=
  ⟨by decide,
    c6_build_validation.2.2.1 ⟨"http", some "localhost", none⟩
      (fun _ _ => none) "localhost" (by decide) rfl (by decide)⟩

/-- C8: `scan` has exactly one error path: it returns an error precisely
when the homepage fetch fails (transport failure, or non-2xx status, with
the corresponding error value), and on a 2xx homepage it returns the
populated scan result assembled from the best-effort sub-probe values. -/
theorem c8_scan_single_error_path (env : ScanEnv) :
    (∀ e, scan env = .error e ↔
      ((env.homepage = none ∧ e = Error.httpRequest "request failed") ∨
        (∃ st body, env.homepage = some (st, body) ∧ ¬(200 ≤ st ∧ st ≤ 299) ∧
          e = Error.httpStatus st))) ∧
    (∀ st body, env.homepage = some (st, body) → 200 ≤ st → st ≤ 299 →
      scan env = .ok
        { url := env.url
          wordpress_detected := (env.detectVersion body).isSome ||
            env.restApi.isSome || env.cookies.isSome
          wordpress_version := env.detectVersion body
          wordpress_latest := env.latest
          theme := env.themeOf body
          plugins := env.pluginsOf body }) := by
  constructor
  · intro e
    cases hh : env.homepage with
    | none =>
      simp only [scan, fetch_page, hh]
      simp [eq_comm]
    | some p =>
      rcases p with ⟨st, body⟩
      by_cases hst : 200 ≤ st ∧ st ≤ 299
      · simp only [scan, fetch_page, hh, if_pos hst]
        simp [hst]
      · simp only [scan, fetch_page, hh, if_neg hst]
        simp [hst, eq_comm]
        intro _
        omega
  · intro st body hh h1 h2
    simp only [scan, fetch_page, hh, if_pos (And.intro h1 h2)]

/-- C8 (witness): a concrete 2xx environment with every sub-probe failed
still yields a populated scan result. -/
theorem c8_scan_single_error_path_witness :
    scan
      { url := "https://example.com/"
        homepage := some (200, "<html></html>")
        detectVersion := fun _ => none
        restApi := none
        cookies := none
        latest := none
        themeOf := fun _ => none
        pluginsOf := fun _ => [] } = .ok
      { url := "https://example.com/"
        wordpress_detected := false
        wordpress_version := none
        wordpress_latest := none
        theme := none
        plugins := [] } :=
  (c8_scan_single_error_path _).2 200 "<html></html>" rfl (by decide) (by decide)

theorem meta_eq_spec_amended (tags : List MetaTag) :
    detect_version_from_meta tags =
      spec_meta_amended (generatorContents tags) := by
  induction tags with
  | nil => rfl
  | cons t rest ih =>
    by_cases hn : t.name = some "generator"
    · cases hc : t.content with
      | none => simp [detect_version_from_meta, generatorContents, hn, hc, ih]
      | some c =>
        simp [detect_version_from_meta, spec_meta_amended, generatorContents,
          hn, hc, ih]
    · simp [detect_version_from_meta, generatorContents, hn, ih]

/-- C7 (counterexample): with two generator tags, the first reading
`WordPressRocks` and the second `WordPress 6.4`, the claim's step 1 yields
`6.4`, but the code's `strip_prefix("WordPress ")?` aborts the meta
heuristic at the first tag and the whole detection (feed and readme absent)
returns nothing. -/
theorem c7_counterexample :
    detect_wp_version tagsAbort none none = none ∧
    spec_detect_claim tagsAbort none none = some "6.4" := by
  constructor
  · decide
  · decide

/-- C7 (amended): core version detection tries the three heuristics in
order — meta generator tag, feed regex, readme regex — with the amendment
that a generator tag whose content begins `"WordPress"` without the trailing
space aborts the meta heuristic entirely (detection proceeds to the feed);
otherwise a tag with prefix `"WordPress "` and nonempty trimmed remainder
yields it, an empty remainder lets the scan continue, and the feed and
readme are searched for their leftmost pattern matches. -/
theorem c7_detect_wp_version_amended (tags : List MetaTag)
    (feedBody readmeBody : Option String) :
    detect_wp_version tags feedBody readmeBody =
      spec_detect_amended tags feedBody readmeBody := by
  unfold detect_wp_version spec_detect_amended
  rw [meta_eq_spec_amended]

theorem themeLinkLoop_eq_spec (latestOf : String → Option String)
    (links : List LinkTag) :
    themeLinkLoop latestOf links =
      (((links.filter LinkTag.relStylesheet).filterMap LinkTag.href).filterMap
        extract_theme_from_url).head?.map
        (fun t => { t with latest_version := latestOf t.slug }) := by
  induction links with
  | nil => rfl
  | cons l rest ih =>
    cases hr : l.relStylesheet with
    | false => simp [themeLinkLoop, hr, List.filter_cons, ih]
    | true =>
      cases hh : l.href with
      | none =>
        simp [themeLinkLoop, hr, hh, List.filter_cons, List.filterMap_cons, ih]
      | some href =>
        cases hx : extract_theme_from_url href with
        | none =>
          simp [themeLinkLoop, hr, hh, hx, List.filter_cons,
            List.filterMap_cons, ih]
        | some t =>
          simp [themeLinkLoop, hr, hh, hx, List.filter_cons,
            List.filterMap_cons]

/-- C9 (counterexample): on a stylesheet href whose only query parameter is
named `clever`, the claim (version from a query parameter named `ver`)
detects the theme with no installed version, but the code's substring search
for `ver=` finds the tail of `clever=` and reports version `9.9`. -/
theorem c9_counterexample :
    detect_theme docCleverHref (fun _ => none) =
      some { slug := "foo", version := some "9.9", latest_version := none } ∧
    spec_theme_claim docCleverHref (fun _ => none) =
      some { slug := "foo", version := none, latest_version := none } := by
  constructor
  · decide
  · decide

/-- C9 (amended): theme detection walks the stylesheet links in document
order and keeps only the first match, falling back to a raw-markup scan
(with no installed version) only when no link matches — with the amendment
that the installed version comes from the first occurrence of the substring
`ver=` anywhere in the href (even inside another parameter's name), taking
the following run of alphanumeric/dot/hyphen/underscore characters,
normalized. -/
theorem c9_detect_theme_amended (doc : DocModel)
    (latestOf : String → Option String) :
    detect_theme doc latestOf = spec_theme_amended doc latestOf := by
  unfold detect_theme spec_theme_amended
  rw [themeLinkLoop_eq_spec]
  cases hq : (((doc.links.filter LinkTag.relStylesheet).filterMap
      LinkTag.href).filterMap extract_theme_from_url).head? with
  | none => rfl
  | some t => rfl

end WpAudit
